import Mathlib

/-!
Shallow embedding of `src/index.ts` (the `TViewerErrorNotifier` class).

The embedding models:
  * JSON-like dynamic values (`Json`), since headers/params/data/response
    bodies are arbitrary caller-defined values;
  * `JSON.stringify` both in its compact one-argument form and in the
    pretty-printing form `JSON.stringify(v, null, 2)`;
  * the notifier configuration, constructor validation, error-record
    construction (`handleError`), message formatting (`sendErrorMessage`),
    the two delivery paths (`sendTelegramMessage`, `sendErrorAsFile`),
    and the local log append (`logError`);
  * side effects as an explicit event trace, with an environment `Env`
    deciding the outcome of the two Telegram POSTs and of the log append,
    plus an explicit disk state for the temporary JSON file.
-/

mutual

/-- JSON-like dynamic values, as a mutual inductive so that all recursions
below are structural. -/
inductive Json where
  | null : Json
  | bool : Bool → Json
  | num : Int → Json
  | str : String → Json
  | arr : JsonList → Json
  | obj : JsonFields → Json

inductive JsonList where
  | nil : JsonList
  | cons : Json → JsonList → JsonList

inductive JsonFields where
  | nil : JsonFields
  | cons : String → Json → JsonFields → JsonFields

end

/-- JavaScript truthiness test on a JSON value: `null`, `false`, `0` and
the empty string are falsy; every array and object is truthy. -/
def Json.falsy : Json → Bool
  | .null => true
  | .bool b => !b
  | .num n => n == 0
  | .str s => s == ""
  | .arr _ => false
  | .obj _ => false

/-- Model of the JavaScript `x || dflt` idiom on an optional JSON field
(`undefined` is `none`). -/
def jsOrJson : Option Json → Json → Json
  | none, dflt => dflt
  | some v, dflt => if v.falsy then dflt else v

/-- Model of the JavaScript `x || dflt` idiom on an optional string field. -/
def jsOrStr : Option String → String → String
  | none, dflt => dflt
  | some s, dflt => if s == "" then dflt else s

/-- Decimal digit character. -/
def digitChar : Nat → Char
  | 0 => '0'
  | 1 => '1'
  | 2 => '2'
  | 3 => '3'
  | 4 => '4'
  | 5 => '5'
  | 6 => '6'
  | 7 => '7'
  | 8 => '8'
  | 9 => '9'
  | _ => '0'

/-- Fuel-driven decimal digit list of a natural number (most significant
digit first). The fuel makes the recursion structural so that terms
reduce definitionally. -/
def natToCharsAux : Nat → Nat → List Char
  | 0, _ => []
  | fuel + 1, n =>
    if n < 10 then [digitChar n]
    else natToCharsAux fuel (n / 10) ++ [digitChar (n % 10)]

/-- Decimal representation of a natural number, as JavaScript prints it. -/
def natToString (n : Nat) : String := String.mk (natToCharsAux (n + 1) n)

/-- Decimal representation of an integer, as JavaScript prints it inside a
template literal or `JSON.stringify`. -/
def intToString (i : Int) : String :=
  if i < 0 then "-" ++ natToString i.natAbs else natToString i.toNat

/-- Hexadecimal digit character (lowercase), for `\uXXXX` escapes. -/
def hexDigit : Nat → Char
  | 0 => '0'
  | 1 => '1'
  | 2 => '2'
  | 3 => '3'
  | 4 => '4'
  | 5 => '5'
  | 6 => '6'
  | 7 => '7'
  | 8 => '8'
  | 9 => '9'
  | 10 => 'a'
  | 11 => 'b'
  | 12 => 'c'
  | 13 => 'd'
  | 14 => 'e'
  | 15 => 'f'
  | _ => '0'

/-- Four-digit hexadecimal rendering used by `JSON.stringify` for control
characters. -/
def hex4 (n : Nat) : String :=
  String.mk [hexDigit (n / 4096 % 16), hexDigit (n / 256 % 16),
    hexDigit (n / 16 % 16), hexDigit (n % 16)]

/-- Escaping of one character inside a JSON string literal, following
`JSON.stringify`. -/
def escChar (c : Char) : String :=
  if c = '"' then "\\\""
  else if c = '\\' then "\\\\"
  else if c = '\x08' then "\\b"
  else if c = '\t' then "\\t"
  else if c = '\n' then "\\n"
  else if c = '\x0c' then "\\f"
  else if c = '\r' then "\\r"
  else if c.toNat < 32 then "\\u" ++ hex4 c.toNat
  else String.singleton c

/-- Escaping of a character list inside a JSON string literal. -/
def escList : List Char → String
  | [] => ""
  | c :: cs => escChar c ++ escList cs

/-- A JSON string literal: quotes around the escaped contents. -/
def quoteStr (s : String) : String := "\"" ++ escList s.data ++ "\""

mutual

/-- Compact `JSON.stringify(v)` (single-argument form): separators are
`,` and `:` with no added whitespace. -/
def stringifyC : Json → String
  | .null => "null"
  | .bool true => "true"
  | .bool false => "false"
  | .num n => intToString n
  | .str s => quoteStr s
  | .arr JsonList.nil => "[]"
  | .arr (JsonList.cons h t) => "[" ++ stringifyC h ++ stringifyCListRest t ++ "]"
  | .obj JsonFields.nil => "\x7b\x7d"
  | .obj (JsonFields.cons k v t) =>
    "\x7b" ++ quoteStr k ++ ":" ++ stringifyC v ++ stringifyCFieldsRest t ++ "\x7d"

def stringifyCListRest : JsonList → String
  | .nil => ""
  | .cons h t => "," ++ stringifyC h ++ stringifyCListRest t

def stringifyCFieldsRest : JsonFields → String
  | .nil => ""
  | .cons k v t => "," ++ quoteStr k ++ ":" ++ stringifyC v ++ stringifyCFieldsRest t

end

/-- Indentation of `2 * d` spaces used by `JSON.stringify(v, null, 2)`. -/
def indentStr (d : Nat) : String := String.mk (List.replicate (2 * d) ' ')

mutual

/-- Pretty `JSON.stringify(v, null, 2)` at nesting depth `d`: two-space
indentation, elements one per line, closing bracket at the parent depth;
empty arrays and objects print flat. -/
def stringifyP : Json → Nat → String
  | .null, _ => "null"
  | .bool true, _ => "true"
  | .bool false, _ => "false"
  | .num n, _ => intToString n
  | .str s, _ => quoteStr s
  | .arr JsonList.nil, _ => "[]"
  | .arr (JsonList.cons h t), d =>
    "[\n" ++ indentStr (d + 1) ++ stringifyP h (d + 1) ++
      stringifyPListRest t (d + 1) ++ "\n" ++ indentStr d ++ "]"
  | .obj JsonFields.nil, _ => "\x7b\x7d"
  | .obj (JsonFields.cons k v t), d =>
    "\x7b\n" ++ indentStr (d + 1) ++ quoteStr k ++ ": " ++ stringifyP v (d + 1) ++
      stringifyPFieldsRest t (d + 1) ++ "\n" ++ indentStr d ++ "\x7d"

def stringifyPListRest : JsonList → Nat → String
  | .nil, _ => ""
  | .cons h t, d => ",\n" ++ indentStr d ++ stringifyP h d ++ stringifyPListRest t d

def stringifyPFieldsRest : JsonFields → Nat → String
  | .nil, _ => ""
  | .cons k v t, d =>
    ",\n" ++ indentStr d ++ quoteStr k ++ ": " ++ stringifyP v d ++
      stringifyPFieldsRest t d

end

/-- Top-level `JSON.stringify(v, null, 2)`. -/
def stringify2 (v : Json) : String := stringifyP v 0

/-- Constructor options of `TViewerErrorNotifier` (`NotifierOptions` in the
source). `sendAsFile` and `logFilePath` are optional; the destructuring
defaults `sendAsFile = false` and `logFilePath = './error.log'` are applied
by the constructor. -/
structure NotifierOptions where
  botToken : String
  chatId : String
  sendAsFile : Option Bool
  logFilePath : Option String

/-- The constructed notifier state (the private fields of the class). -/
structure TViewerErrorNotifier where
  botToken : String
  chatId : String
  sendAsFile : Bool
  logFilePath : String

/-- The constructor: throws (models as `Except.error`) when `botToken` or
`chatId` is falsy (for a string: empty), otherwise stores the fields. -/
def mkNotifier (opts : NotifierOptions) : Except String TViewerErrorNotifier :=
  if opts.botToken == "" then Except.error "botToken обязателен для настройки."
  else if opts.chatId == "" then Except.error "chatId обязателен для настройки."
  else Except.ok
    { botToken := opts.botToken
      chatId := opts.chatId
      sendAsFile := opts.sendAsFile.getD false
      logFilePath := opts.logFilePath.getD "./error.log" }

/-- A response status as it appears in `ErrorDetails.status`: the numeric
HTTP status, or the sentinel string when no response was received. -/
inductive StatusValue where
  | num : Int → StatusValue
  | str : String → StatusValue
deriving DecidableEq

/-- Rendering of a status inside a template literal. -/
def statusToString : StatusValue → String
  | .num n => intToString n
  | .str s => s

/-- The request config attached to an Axios error (each field may be
absent). -/
structure AxiosConfig where
  url : Option String
  method : Option String
  headers : Option Json
  params : Option Json
  data : Option Json

/-- The response attached to an Axios error, when one was received. -/
structure AxiosResponse where
  status : Int
  statusText : String
  data : Json

/-- An intercepted Axios error: possibly missing config and response. -/
structure AxiosError where
  config : Option AxiosConfig
  response : Option AxiosResponse

/-- The `ErrorDetails` record built by `handleError`. -/
structure ErrorDetails where
  url : String
  method : String
  headers : Json
  params : Json
  data : Json
  status : StatusValue
  statusText : String
  responseData : Json

/-- The empty JSON object, the default for absent headers/params/data. -/
def emptyObj : Json := Json.obj JsonFields.nil

/-- The sentinel used when the error carries no response. -/
def noResponseSentinel : String := "Нет ответа"

/-- Construction of the `ErrorDetails` record from the intercepted error
(source lines 74-83): `config?.field || default` for the request side,
and the sentinel for the response side when `response` is absent. -/
def mkErrorDetails (e : AxiosError) : ErrorDetails :=
  { url := jsOrStr (e.config.bind AxiosConfig.url) ""
    method := jsOrStr (e.config.bind AxiosConfig.method) ""
    headers := jsOrJson (e.config.bind AxiosConfig.headers) emptyObj
    params := jsOrJson (e.config.bind AxiosConfig.params) emptyObj
    data := jsOrJson (e.config.bind AxiosConfig.data) emptyObj
    status := match e.response with
      | some r => StatusValue.num r.status
      | none => StatusValue.str noResponseSentinel
    statusText := match e.response with
      | some r => r.statusText
      | none => noResponseSentinel
    responseData := match e.response with
      | some r => r.data
      | none => Json.str noResponseSentinel }

/-- Which HTTP client issues an outbound request: the wrapped instance
created by `axios.create()` (which carries the failure interceptor), or
the default `axios` export (which does not). -/
inductive ClientTag where
  | instanceClient : ClientTag
  | defaultAxios : ClientTag
deriving DecidableEq

/-- Observable side effects of the notifier, in program order. -/
inductive Event where
  | postMessage : ClientTag → String → String → String → String → Bool → Event
  | postDocument : ClientTag → String → String → String → String → Bool → Event
  | consoleError : String → Event
  | fsWrite : String → String → Event
  | fsUnlink : String → Event
  | logAppend : String → String → Bool → Event
deriving DecidableEq

/-- Environment fixing the nondeterministic outcomes of the side effects:
whether each Telegram POST succeeds, whether the log append succeeds, the
current ISO-8601 timestamp, and the module directory `__dirname`. -/
structure Env where
  msgOk : Bool
  docOk : Bool
  appendOk : Bool
  nowIso : String
  dirname : String

/-- Disk contents as an association list from path to file content. -/
def Disk : Type := List (String × String)

/-- Model of `fs.writeFileSync`: create or overwrite the file. -/
def diskWrite (d : Disk) (p c : String) : Disk :=
  (p, c) :: List.filter (fun e => e.1 != p) d

/-- Model of `fs.unlinkSync`: remove the file. -/
def diskRemove (d : Disk) (p : String) : Disk :=
  List.filter (fun e => e.1 != p) d

/-- Whether a file exists on disk. -/
def diskHas (d : Disk) (p : String) : Bool :=
  List.any d (fun e => e.1 == p)

/-- Model of `path.join`. -/
def pathJoin (a b : String) : String := a ++ "/" ++ b

/-- The `sendTelegramMessage` method (source lines 117-129): one POST to
the `sendMessage` endpoint through the default `axios` export; a delivery
failure is caught and reported to `console.error`, never rethrown. -/
def sendTelegramMessage (n : TViewerErrorNotifier) (env : Env) (message : String) :
    List Event :=
  let url := "https://api.telegram.org/bot" ++ n.botToken ++ "/sendMessage"
  let post := Event.postMessage ClientTag.defaultAxios url n.chatId message
    "Markdown" env.msgOk
  if env.msgOk then [post]
  else [post, Event.consoleError "Ошибка при отправке сообщения в Telegram:"]

/-- The message text built by `sendErrorMessage` (source lines 99-108). -/
def errorMessageText (d : ErrorDetails) : String :=
  "*Ошибка при запросе к API*\n\n" ++
  ("*URL:* " ++ d.url ++ "\n") ++
  ("*Метод:* " ++ d.method ++ "\n") ++
  ("*Статус:* " ++ statusToString d.status ++ " " ++ d.statusText ++ "\n\n") ++
  ("*Запрос:* ```json\n" ++
    stringify2 (Json.obj (JsonFields.cons "headers" d.headers
      (JsonFields.cons "params" d.params
        (JsonFields.cons "data" d.data JsonFields.nil)))) ++ "\n```\n\n") ++
  ("*Ответ:* ```json\n" ++ stringify2 d.responseData ++ "\n```")

/-- The `sendErrorMessage` method: format the message and send it. -/
def sendErrorMessage (n : TViewerErrorNotifier) (env : Env) (d : ErrorDetails) :
    List Event :=
  sendTelegramMessage n env (errorMessageText d)

/-- The JSON payload written to the temporary file by `sendErrorAsFile`
(source lines 136-145). -/
def errorFilePayload (d : ErrorDetails) : Json :=
  Json.obj (JsonFields.cons "request"
    (Json.obj (JsonFields.cons "url" (Json.str d.url)
      (JsonFields.cons "method" (Json.str d.method)
        (JsonFields.cons "headers" d.headers
          (JsonFields.cons "params" d.params
            (JsonFields.cons "data" d.data JsonFields.nil))))))
    (JsonFields.cons "response" d.responseData JsonFields.nil))

/-- The fixed temporary file path `path.join(__dirname, 'error.json')`. -/
def tempFilePath (env : Env) : String := pathJoin env.dirname "error.json"

/-- The `sendErrorAsFile` method (source lines 135-166): write the payload
to the temporary file, POST it to the `sendDocument` endpoint through the
default `axios` export inside `try`, report a delivery failure to
`console.error` in `catch`, and unlink the file in `finally` on both exit
paths. Returns the event trace and the updated disk. -/
def sendErrorAsFile (n : TViewerErrorNotifier) (env : Env) (d : ErrorDetails)
    (disk : Disk) : List Event × Disk :=
  let jsonContent := stringify2 (errorFilePayload d)
  let filePath := tempFilePath env
  let disk1 := diskWrite disk filePath jsonContent
  let url := "https://api.telegram.org/bot" ++ n.botToken ++ "/sendDocument"
  let post := Event.postDocument ClientTag.defaultAxios url n.chatId
    "Произошла ошибка при запросе к API" jsonContent env.docOk
  let evs :=
    if env.docOk then [Event.fsWrite filePath jsonContent, post]
    else [Event.fsWrite filePath jsonContent, post,
      Event.consoleError "Ошибка при отправке файла в Telegram:"]
  (evs ++ [Event.fsUnlink filePath], diskRemove disk1 filePath)

/-- Model of JavaScript `toUpperCase` on one character (ASCII range, which
covers HTTP method names). -/
def jsCharUpper : Char → Char
  | 'a' => 'A'
  | 'b' => 'B'
  | 'c' => 'C'
  | 'd' => 'D'
  | 'e' => 'E'
  | 'f' => 'F'
  | 'g' => 'G'
  | 'h' => 'H'
  | 'i' => 'I'
  | 'j' => 'J'
  | 'k' => 'K'
  | 'l' => 'L'
  | 'm' => 'M'
  | 'n' => 'N'
  | 'o' => 'O'
  | 'p' => 'P'
  | 'q' => 'Q'
  | 'r' => 'R'
  | 's' => 'S'
  | 't' => 'T'
  | 'u' => 'U'
  | 'v' => 'V'
  | 'w' => 'W'
  | 'x' => 'X'
  | 'y' => 'Y'
  | 'z' => 'Z'
  | c => c

/-- Model of JavaScript `toUpperCase` on a string. -/
def strUpper (s : String) : String := String.mk (s.data.map jsCharUpper)

/-- The log entry string built by `logError` (source lines 173-175). -/
def logEntryText (nowIso : String) (d : ErrorDetails) : String :=
  ("[" ++ nowIso ++ "] " ++ strUpper d.method ++ " " ++ d.url ++ " - Status: " ++
    statusToString d.status ++ "\n") ++
  ("Request Data: " ++ stringifyC d.data ++ "\n") ++
  ("Response Data: " ++ stringifyC d.responseData ++ "\n\n")

/-- The `logError` method (source lines 172-182): append one entry to the
log file; an append failure is reported to `console.error` by the callback
and never thrown. Returns the event trace and the new log-file blocks. -/
def logError (n : TViewerErrorNotifier) (env : Env) (d : ErrorDetails)
    (log : List String) : List Event × List String :=
  let entry := logEntryText env.nowIso d
  if env.appendOk then ([Event.logAppend n.logFilePath entry true], log ++ [entry])
  else ([Event.logAppend n.logFilePath entry false,
    Event.consoleError "Ошибка при записи в лог файл:"], log)

/-- The mutable world acted on by one interception: the disk and the
blocks of the configured log file. -/
structure HState where
  disk : Disk
  log : List String

/-- The `handleError` method (source lines 71-92): build the record, run
exactly one delivery path chosen by `sendAsFile`, then append to the log.
Returns the event trace in program order and the updated world. -/
def handleError (n : TViewerErrorNotifier) (env : Env) (e : AxiosError)
    (st : HState) : List Event × HState :=
  let d := mkErrorDetails e
  let step1 :=
    if n.sendAsFile then sendErrorAsFile n env d st.disk
    else (sendErrorMessage n env d, st.disk)
  let step2 := logError n env d st.log
  (step1.1 ++ step2.1, { disk := step1.2, log := step2.2 })

/-- Result of the rejected-response interceptor registered in the
constructor: it always returns `Promise.reject` of some error value. -/
inductive InterceptResult where
  | reject : AxiosError → InterceptResult

/-- The rejected-response interceptor registered on the wrapped instance
(source lines 58-64): `await handleError(error)` then
`Promise.reject(error)`. -/
def interceptorRejected (n : TViewerErrorNotifier) (env : Env) (e : AxiosError)
    (st : HState) : InterceptResult × List Event × HState :=
  let r := handleError n env e st
  (InterceptResult.reject e, r.1, r.2)

/-- The client the interceptor is registered on: the wrapped instance,
not the default `axios` export. -/
def interceptorRegisteredOn : ClientTag := ClientTag.instanceClient

/-- The client tag of an outbound POST event, if the event is one. -/
def eventClient : Event → Option ClientTag
  | Event.postMessage c _ _ _ _ _ => some c
  | Event.postDocument c _ _ _ _ _ => some c
  | _ => none

/-- Whether an event is a `sendDocument` upload POST. -/
def isPostDocument : Event → Bool
  | Event.postDocument _ _ _ _ _ _ => true
  | _ => false

/-- Whether an event is a `sendMessage` POST. -/
def isPostMessage : Event → Bool
  | Event.postMessage _ _ _ _ _ _ => true
  | _ => false

/-- Whether an event is a log append attempt. -/
def isLogAppend : Event → Bool
  | Event.logAppend _ _ _ => true
  | _ => false

/-- Whether an event is a `console.error` report. -/
def isConsoleError : Event → Bool
  | Event.consoleError _ => true
  | _ => false

/-- The concrete failure instance named by the spec: response status 404
with body having one field `error` mapped to `not found`, and a given
request URL. -/
def err404 : AxiosError :=
  { config := some
      { url := some "https://ex.com/a"
        method := some "get"
        headers := none
        params := none
        data := none }
    response := some
      { status := 404
        statusText := "Not Found"
        data := Json.obj (JsonFields.cons "error" (Json.str "not found")
          JsonFields.nil) } }

/-- Substring containment: `t` occurs contiguously inside `s`. -/
def StrContains (s t : String) : Prop := ∃ a b : String, s = a ++ t ++ b

/-- Boolean test that a string contains no newline character. -/
def noLF (s : String) : Bool := s.data.all (fun c => c != '\n')

/-- Split a character list at newline characters (the line structure of a
text block; a trailing newline yields a final empty line). -/
def splitNL : List Char → List (List Char)
  | [] => [[]]
  | c :: cs =>
    if c = '\n' then [] :: splitNL cs
    else
      match splitNL cs with
      | [] => [[c]]
      | l :: ls => (c :: l) :: ls

theorem strContains_self (t : String) : StrContains t t := by
  refine ⟨"", "", ?_⟩
  apply String.ext
  simp [String.data_append]

theorem strContains_appendRight {s t : String} (u : String)
    (h : StrContains s t) : StrContains (s ++ u) t := by
  obtain ⟨a, b, rfl⟩ := h
  exact ⟨a, b ++ u, by rw [String.append_assoc]⟩

theorem strContains_appendLeft {s t : String} (u : String)
    (h : StrContains s t) : StrContains (u ++ s) t := by
  obtain ⟨a, b, rfl⟩ := h
  exact ⟨u ++ a, b, by rw [String.append_assoc, String.append_assoc,
    String.append_assoc]⟩

theorem strContains_mid (a t b : String) : StrContains (a ++ t ++ b) t :=
  ⟨a, b, rfl⟩

theorem noLF_append (a b : String) : noLF (a ++ b) = (noLF a && noLF b) := by
  simp [noLF, String.data_append]

theorem hexDigit_ne_nl (n : Nat) : hexDigit n ≠ '\n' := by
  unfold hexDigit
  split <;> decide

theorem digitChar_ne_nl (n : Nat) : digitChar n ≠ '\n' := by
  unfold digitChar
  split <;> decide

theorem noLF_hex4 (n : Nat) : noLF (hex4 n) = true := by
  simp [hex4, noLF, hexDigit_ne_nl]

theorem noLF_escChar (c : Char) : noLF (escChar c) = true := by
  unfold escChar
  split
  · decide
  · split
    · decide
    · split
      · decide
      · split
        · decide
        · split
          · decide
          · split
            · decide
            · split
              · decide
              · split
                · rw [noLF_append, noLF_hex4]
                  decide
                · rename_i h1 h2 h3 h4 h5 h6 h7 h8
                  simp only [noLF, String.singleton, List.all]
                  have : c ≠ '\n' := by
                    intro he
                    exact h8 (by rw [he]; decide)
                  simp [this]

theorem noLF_escList (l : List Char) : noLF (escList l) = true := by
  induction l with
  | nil => decide
  | cons c cs ih => rw [escList, noLF_append, noLF_escChar, ih]; rfl

theorem noLF_quoteStr (s : String) : noLF (quoteStr s) = true := by
  rw [quoteStr, noLF_append, noLF_append, noLF_escList]
  decide

theorem noLF_natToCharsAux (fuel n : Nat) :
    (natToCharsAux fuel n).all (fun c => c != '\n') = true := by
  induction fuel generalizing n with
  | zero => rfl
  | succ f ih =>
    rw [natToCharsAux]
    split
    · simp [digitChar_ne_nl]
    · rw [List.all_append, ih]
      simp [digitChar_ne_nl]

theorem noLF_natToString (n : Nat) : noLF (natToString n) = true := by
  rw [natToString, noLF]
  exact noLF_natToCharsAux (n + 1) n

theorem noLF_intToString (i : Int) : noLF (intToString i) = true := by
  rw [intToString]
  split
  · rw [noLF_append, noLF_natToString]
    decide
  · exact noLF_natToString i.toNat

theorem noLF_indentStr (d : Nat) : noLF (indentStr d) = true := by
  simp [indentStr, noLF]

mutual

theorem noLF_stringifyC : ∀ v : Json, noLF (stringifyC v) = true
  | .null => by decide
  | .bool true => by decide
  | .bool false => by decide
  | .num n => noLF_intToString n
  | .str s => noLF_quoteStr s
  | .arr JsonList.nil => by decide
  | .arr (JsonList.cons h t) => by
    simp [stringifyC, noLF_append, noLF_stringifyC h, noLF_stringifyCListRest t]
    decide
  | .obj JsonFields.nil => by decide
  | .obj (JsonFields.cons k v t) => by
    simp [stringifyC, noLF_append, noLF_quoteStr k, noLF_stringifyC v,
      noLF_stringifyCFieldsRest t]
    decide

theorem noLF_stringifyCListRest : ∀ t : JsonList,
    noLF (stringifyCListRest t) = true
  | JsonList.nil => by decide
  | JsonList.cons h t => by
    simp [stringifyCListRest, noLF_append, noLF_stringifyC h,
      noLF_stringifyCListRest t]
    decide

theorem noLF_stringifyCFieldsRest : ∀ t : JsonFields,
    noLF (stringifyCFieldsRest t) = true
  | JsonFields.nil => by decide
  | JsonFields.cons k v t => by
    simp [stringifyCFieldsRest, noLF_append, noLF_quoteStr k, noLF_stringifyC v,
      noLF_stringifyCFieldsRest t]
    decide

end

theorem jsCharUpper_eq_nl {c : Char} (h : jsCharUpper c = '\n') : c = '\n' := by
  revert h
  unfold jsCharUpper
  split <;> intro h
  all_goals first
    | exact h
    | exact absurd h (by decide)

theorem noLF_strUpper {s : String} (h : noLF s = true) :
    noLF (strUpper s) = true := by
  rw [noLF] at h ⊢
  rw [strUpper]
  simp only [List.all_map] at *
  rw [List.all_eq_true] at h ⊢
  intro c hc
  have hcn := h c hc
  simp only [Function.comp, ne_eq, bne_iff_ne] at *
  intro hup
  exact hcn (jsCharUpper_eq_nl hup)

theorem splitNL_ne_nil (l : List Char) : splitNL l ≠ [] := by
  cases l with
  | nil => simp [splitNL]
  | cons c cs =>
    rw [splitNL]
    split
    · simp
    · split <;> simp

theorem splitNL_append {l₁ : List Char} (l₂ : List Char)
    (h : l₁.all (fun c => c != '\n') = true) :
    splitNL (l₁ ++ '\n' :: l₂) = l₁ :: splitNL l₂ := by
  induction l₁ with
  | nil => simp [splitNL]
  | cons c cs ih =>
    rw [List.all_cons, Bool.and_eq_true] at h
    have hc : c ≠ '\n' := by simpa using h.1
    rw [List.cons_append, splitNL, if_neg hc, ih h.2]

/-- C1: for every intercepted failure, after the notification and logging
side effects complete, the registered response interceptor rejects with
exactly the original error object, unchanged, in every environment (so in
particular whatever the delivery and log outcomes are); the caller of the
wrapped client always still observes the original failure. -/
theorem c1_interceptor_rejects_original (n : TViewerErrorNotifier) (env : Env)
    (e : AxiosError) (st : HState) :
    (interceptorRejected n env e st).1 = InterceptResult.reject e := rfl

/-- C5: constructing with an empty `botToken` throws a configuration
error, constructing with an empty `chatId` throws a configuration error,
and construction succeeds exactly when both are non-empty. -/
theorem c5_constructor_validation (opts : NotifierOptions) :
    (opts.botToken = "" →
      mkNotifier opts = Except.error "botToken обязателен для настройки.") ∧
    (opts.chatId = "" → ∃ msg, mkNotifier opts = Except.error msg) ∧
    ((∃ n, mkNotifier opts = Except.ok n) ↔
      opts.botToken ≠ "" ∧ opts.chatId ≠ "") := by
  refine ⟨?_, ?_, ?_⟩
  · intro h
    simp [mkNotifier, h]
  · intro h
    by_cases hb : opts.botToken = ""
    · exact ⟨"botToken обязателен для настройки.", by simp [mkNotifier, hb]⟩
    · exact ⟨"chatId обязателен для настройки.", by simp [mkNotifier, hb, h]⟩
  · constructor
    · rintro ⟨n, hn⟩
      by_cases hb : opts.botToken = ""
      · simp [mkNotifier, hb] at hn
      · by_cases hc : opts.chatId = ""
        · simp [mkNotifier, hb, hc] at hn
        · exact ⟨hb, hc⟩
    · rintro ⟨hb, hc⟩
      refine ⟨⟨opts.botToken, opts.chatId, opts.sendAsFile.getD false,
        opts.logFilePath.getD "./error.log"⟩, ?_⟩
      simp [mkNotifier, hb, hc]

/-- Witness for C5 at concrete inputs: empty token rejected, empty chat id
rejected, both non-empty accepted. -/
theorem c5_constructor_validation_witness :
    mkNotifier ⟨"", "c", none, none⟩ =
      Except.error "botToken обязателен для настройки." ∧
    (∃ msg, mkNotifier ⟨"t", "", none, none⟩ = Except.error msg) ∧
    (∃ n, mkNotifier ⟨"t", "c", none, none⟩ = Except.ok n) :=
  ⟨(c5_constructor_validation ⟨"", "c", none, none⟩).1 rfl,
    (c5_constructor_validation ⟨"t", "", none, none⟩).2.1 rfl,
    (c5_constructor_validation ⟨"t", "c", none, none⟩).2.2.2
      ⟨by decide, by decide⟩⟩

/-- C6: when the intercepted error has no response, the record's status,
status text and response data all equal the fixed "no response" sentinel;
and each of headers, params and data that is absent from the request
config defaults to the empty object. -/
theorem c6_record_sentinel_and_defaults (e : AxiosError) :
    (e.response = none →
      (mkErrorDetails e).status = StatusValue.str noResponseSentinel ∧
      (mkErrorDetails e).statusText = noResponseSentinel ∧
      (mkErrorDetails e).responseData = Json.str noResponseSentinel) ∧
    (∀ c, e.config = some c →
      (c.headers = none → (mkErrorDetails e).headers = emptyObj) ∧
      (c.params = none → (mkErrorDetails e).params = emptyObj) ∧
      (c.data = none → (mkErrorDetails e).data = emptyObj)) := by
  constructor
  · intro h
    simp [mkErrorDetails, h]
  · intro c hc
    refine ⟨?_, ?_, ?_⟩ <;> intro h <;>
      simp [mkErrorDetails, hc, h, jsOrJson]

/-- Witness for C6: a network failure with no response and a config with
all optional fields absent. -/
theorem c6_record_sentinel_and_defaults_witness :
    (mkErrorDetails ⟨some ⟨some "u", some "get", none, none, none⟩, none⟩).status =
      StatusValue.str noResponseSentinel ∧
    (mkErrorDetails ⟨some ⟨some "u", some "get", none, none, none⟩, none⟩).statusText =
      noResponseSentinel ∧
    (mkErrorDetails ⟨some ⟨some "u", some "get", none, none, none⟩, none⟩).responseData =
      Json.str noResponseSentinel ∧
    (mkErrorDetails ⟨some ⟨some "u", some "get", none, none, none⟩, none⟩).headers =
      emptyObj ∧
    (mkErrorDetails ⟨some ⟨some "u", some "get", none, none, none⟩, none⟩).params =
      emptyObj ∧
    (mkErrorDetails ⟨some ⟨some "u", some "get", none, none, none⟩, none⟩).data =
      emptyObj := by
  have h := c6_record_sentinel_and_defaults
    ⟨some ⟨some "u", some "get", none, none, none⟩, none⟩
  have h1 := h.1 rfl
  have h2 := h.2 ⟨some "u", some "get", none, none, none⟩ rfl
  exact ⟨h1.1, h1.2.1, h1.2.2, h2.1 rfl, h2.2.1 rfl, h2.2.2 rfl⟩

theorem diskHas_diskRemove (d : Disk) (p : String) :
    diskHas (diskRemove d p) p = false := by
  induction d with
  | nil => rfl
  | cons x xs ih =>
    by_cases hx : x.1 = p
    · simp only [diskRemove, List.filter_cons, hx]
      simp only [bne_self_eq_false, if_neg]
      exact ih
    · simp only [diskRemove, diskHas, List.filter_cons, List.any_cons] at ih ⊢
      simp [hx, ih]

/-- C9: every outbound POST issued while handling an intercepted failure
goes through the default `axios` export, never through the wrapped
instance on which the failure interceptor is registered; hence no event of
the trace can re-trigger the interceptor. -/
theorem c9_posts_bypass_interceptor (n : TViewerErrorNotifier) (env : Env)
    (e : AxiosError) (st : HState) :
    (handleError n env e st).1.all
      (fun ev => eventClient ev != some interceptorRegisteredOn) = true := by
  cases hS : n.sendAsFile <;> cases hM : env.msgOk <;> cases hD : env.docOk <;>
    cases hA : env.appendOk <;>
    simp [handleError, hS, hM, hD, hA, sendErrorMessage, sendTelegramMessage,
      sendErrorAsFile, logError, eventClient, interceptorRegisteredOn]

/-- C10: when the intercepted error carries no request config, the record
degenerates to empty strings for url and method and empty objects for
headers, params and data, and the handler still performs exactly one
delivery attempt and exactly one log append on it. -/
theorem c10_no_config_degenerate (n : TViewerErrorNotifier) (env : Env)
    (e : AxiosError) (st : HState) (h : e.config = none) :
    (mkErrorDetails e).url = "" ∧ (mkErrorDetails e).method = "" ∧
    (mkErrorDetails e).headers = emptyObj ∧
    (mkErrorDetails e).params = emptyObj ∧
    (mkErrorDetails e).data = emptyObj ∧
    (handleError n env e st).1.countP
      (fun ev => isPostMessage ev || isPostDocument ev) = 1 ∧
    (handleError n env e st).1.countP isLogAppend = 1 := by
  refine ⟨?_, ?_, ?_, ?_, ?_, ?_, ?_⟩
  · simp [mkErrorDetails, h, jsOrStr]
  · simp [mkErrorDetails, h, jsOrStr]
  · simp [mkErrorDetails, h, jsOrJson]
  · simp [mkErrorDetails, h, jsOrJson]
  · simp [mkErrorDetails, h, jsOrJson]
  · cases hS : n.sendAsFile <;> cases hM : env.msgOk <;> cases hD : env.docOk <;>
      cases hA : env.appendOk <;>
      simp [handleError, hS, hM, hD, hA, sendErrorMessage, sendTelegramMessage,
        sendErrorAsFile, logError, List.countP_cons, isPostMessage,
        isPostDocument, isLogAppend]
  · cases hS : n.sendAsFile <;> cases hM : env.msgOk <;> cases hD : env.docOk <;>
      cases hA : env.appendOk <;>
      simp [handleError, hS, hM, hD, hA, sendErrorMessage, sendTelegramMessage,
        sendErrorAsFile, logError, List.countP_cons, isPostMessage,
        isPostDocument, isLogAppend]

/-- Witness for C10: a config-less network failure, concrete notifier,
environment and initial state. -/
theorem c10_no_config_degenerate_witness :
    (mkErrorDetails ⟨none, none⟩).url = "" ∧
    (mkErrorDetails ⟨none, none⟩).method = "" ∧
    (mkErrorDetails ⟨none, none⟩).headers = emptyObj ∧
    (mkErrorDetails ⟨none, none⟩).params = emptyObj ∧
    (mkErrorDetails ⟨none, none⟩).data = emptyObj ∧
    (handleError ⟨"t", "c", false, "./error.log"⟩
        ⟨true, true, true, "ts", "/app"⟩ ⟨none, none⟩ ⟨[], []⟩).1.countP
      (fun ev => isPostMessage ev || isPostDocument ev) = 1 ∧
    (handleError ⟨"t", "c", false, "./error.log"⟩
        ⟨true, true, true, "ts", "/app"⟩ ⟨none, none⟩ ⟨[], []⟩).1.countP
      isLogAppend = 1 :=
  c10_no_config_degenerate ⟨"t", "c", false, "./error.log"⟩
    ⟨true, true, true, "ts", "/app"⟩ ⟨none, none⟩ ⟨[], []⟩ rfl

/-- C3: in file mode, one intercepted failure issues exactly one document
upload POST, and the temporary JSON file does not exist on disk any more
once the handler has run, both when the upload succeeds and when it
fails. -/
theorem c3_one_upload_and_temp_file_cleanup (n : TViewerErrorNotifier)
    (env : Env) (e : AxiosError) (st : HState) (h : n.sendAsFile = true) :
    (handleError n env e st).1.countP isPostDocument = 1 ∧
    diskHas (handleError n env e st).2.disk (tempFilePath env) = false := by
  constructor
  · cases hD : env.docOk <;> cases hA : env.appendOk <;>
      simp [handleError, h, hD, hA, sendErrorAsFile, logError,
        List.countP_cons, isPostDocument]
  · cases hD : env.docOk <;>
      simp [handleError, h, hD, sendErrorAsFile, diskHas_diskRemove]

/-- Witness for C3: concrete file-mode notifier, with the upload failing
(so the cleanup runs on the failure path) and a concrete pre-existing
disk. -/
theorem c3_one_upload_and_temp_file_cleanup_witness :
    (handleError ⟨"t", "c", true, "./error.log"⟩
        ⟨true, false, true, "ts", "/app"⟩ ⟨none, none⟩
        ⟨[("/app/other.json", "x")], []⟩).1.countP isPostDocument = 1 ∧
    diskHas (handleError ⟨"t", "c", true, "./error.log"⟩
        ⟨true, false, true, "ts", "/app"⟩ ⟨none, none⟩
        ⟨[("/app/other.json", "x")], []⟩).2.disk
      (tempFilePath ⟨true, false, true, "ts", "/app"⟩) = false :=
  c3_one_upload_and_temp_file_cleanup ⟨"t", "c", true, "./error.log"⟩
    ⟨true, false, true, "ts", "/app"⟩ ⟨none, none⟩
    ⟨[("/app/other.json", "x")], []⟩ rfl

/-- C4: every intercepted failure attempts exactly one log append,
whatever the delivery mode and the delivery outcome, and whenever the
append primitive succeeds the configured log file gains exactly the one
formatted block. -/
theorem c4_exactly_one_log_append (n : TViewerErrorNotifier) (env : Env)
    (e : AxiosError) (st : HState) :
    (handleError n env e st).1.countP isLogAppend = 1 ∧
    (env.appendOk = true →
      (handleError n env e st).2.log =
        st.log ++ [logEntryText env.nowIso (mkErrorDetails e)]) := by
  constructor
  · cases hS : n.sendAsFile <;> cases hM : env.msgOk <;> cases hD : env.docOk <;>
      cases hA : env.appendOk <;>
      simp [handleError, hS, hM, hD, hA, sendErrorMessage, sendTelegramMessage,
        sendErrorAsFile, logError, List.countP_cons, isLogAppend]
  · intro hA
    cases hS : n.sendAsFile <;>
      simp [handleError, hS, hA, logError]

/-- Witness for C4: inline mode with the delivery failing; the log still
gains exactly the one block. -/
theorem c4_exactly_one_log_append_witness :
    (handleError ⟨"t", "c", false, "./error.log"⟩
        ⟨false, true, true, "ts", "/app"⟩ ⟨none, none⟩ ⟨[], ["old"]⟩).1.countP
      isLogAppend = 1 ∧
    (handleError ⟨"t", "c", false, "./error.log"⟩
        ⟨false, true, true, "ts", "/app"⟩ ⟨none, none⟩ ⟨[], ["old"]⟩).2.log =
      ["old"] ++ [logEntryText "ts" (mkErrorDetails ⟨none, none⟩)] :=
  ⟨(c4_exactly_one_log_append ⟨"t", "c", false, "./error.log"⟩
      ⟨false, true, true, "ts", "/app"⟩ ⟨none, none⟩ ⟨[], ["old"]⟩).1,
    (c4_exactly_one_log_append ⟨"t", "c", false, "./error.log"⟩
      ⟨false, true, true, "ts", "/app"⟩ ⟨none, none⟩ ⟨[], ["old"]⟩).2 rfl⟩

/-- C7: the inline message contains the fixed title, the request URL, the
method, the rendered status and status text, the pretty-printed JSON block
of headers/params/data, and the pretty-printed JSON block of the response
body; in particular, for a failure with status 404, body with `error`
mapped to `not found`, and URL `https://ex.com/a`, it contains the literal
substrings `404`, the URL, and the pretty-printed body JSON. -/
theorem c7_message_contents :
    (∀ d : ErrorDetails,
      StrContains (errorMessageText d) "*Ошибка при запросе к API*" ∧
      StrContains (errorMessageText d) d.url ∧
      StrContains (errorMessageText d) d.method ∧
      StrContains (errorMessageText d) (statusToString d.status) ∧
      StrContains (errorMessageText d) d.statusText ∧
      StrContains (errorMessageText d)
        (stringify2 (Json.obj (JsonFields.cons "headers" d.headers
          (JsonFields.cons "params" d.params
            (JsonFields.cons "data" d.data JsonFields.nil))))) ∧
      StrContains (errorMessageText d) (stringify2 d.responseData)) ∧
    StrContains (errorMessageText (mkErrorDetails err404)) "404" ∧
    StrContains (errorMessageText (mkErrorDetails err404)) "https://ex.com/a" ∧
    StrContains (errorMessageText (mkErrorDetails err404))
      "\x7b\n  \"error\": \"not found\"\n\x7d" := by
  have general : ∀ d : ErrorDetails,
      StrContains (errorMessageText d) "*Ошибка при запросе к API*" ∧
      StrContains (errorMessageText d) d.url ∧
      StrContains (errorMessageText d) d.method ∧
      StrContains (errorMessageText d) (statusToString d.status) ∧
      StrContains (errorMessageText d) d.statusText ∧
      StrContains (errorMessageText d)
        (stringify2 (Json.obj (JsonFields.cons "headers" d.headers
          (JsonFields.cons "params" d.params
            (JsonFields.cons "data" d.data JsonFields.nil))))) ∧
      StrContains (errorMessageText d) (stringify2 d.responseData) := by
    intro d
    unfold errorMessageText
    refine ⟨?_, ?_, ?_, ?_, ?_, ?_, ?_⟩
    · exact strContains_appendRight _ (strContains_appendRight _
        (strContains_appendRight _ (strContains_appendRight _
          (strContains_appendRight _ ⟨"", "\n\n", by decide⟩))))
    · exact strContains_appendRight _ (strContains_appendRight _
        (strContains_appendRight _ (strContains_appendRight _
          (strContains_appendLeft _ (strContains_appendRight _
            (strContains_appendLeft _ (strContains_self _)))))))
    · exact strContains_appendRight _ (strContains_appendRight _
        (strContains_appendRight _ (strContains_appendLeft _
          (strContains_appendRight _
            (strContains_appendLeft _ (strContains_self _))))))
    · exact strContains_appendRight _ (strContains_appendRight _
        (strContains_appendLeft _ (strContains_appendRight _
          (strContains_appendRight _ (strContains_mid _ _ _)))))
    · exact strContains_appendRight _ (strContains_appendRight _
        (strContains_appendLeft _ (strContains_appendRight _
          (strContains_appendLeft _ (strContains_self _)))))
    · exact strContains_appendRight _ (strContains_appendLeft _
        (strContains_mid _ _ _))
    · exact strContains_appendLeft _ (strContains_mid _ _ _)
  refine ⟨general, ?_, ?_, ?_⟩
  · have h1 := (general (mkErrorDetails err404)).2.2.2.1
    have e1 : statusToString (mkErrorDetails err404).status = "404" := by decide
    rwa [e1] at h1
  · have h2 := (general (mkErrorDetails err404)).2.1
    have e2 : (mkErrorDetails err404).url = "https://ex.com/a" := by decide
    rwa [e2] at h2
  · have h3 := (general (mkErrorDetails err404)).2.2.2.2.2.2
    have e3 : stringify2 (mkErrorDetails err404).responseData =
        "\x7b\n  \"error\": \"not found\"\n\x7d" := by decide
    rwa [e3] at h3

/-- C8: each appended log entry splits at newlines into exactly the
four-line format: `[timestamp] METHOD URL - Status: <status>` with the
method uppercased, then `Request Data: <json>` and `Response Data: <json>`
with single-line JSON dumps, then a trailing blank line (provided the
timestamp, url, method and status rendering contain no newline; the JSON
dumps never do). -/
theorem c8_log_entry_four_lines (ts : String) (d : ErrorDetails)
    (hts : noLF ts = true) (hurl : noLF d.url = true)
    (hm : noLF d.method = true)
    (hst : noLF (statusToString d.status) = true) :
    splitNL (logEntryText ts d).data =
      [("[" ++ ts ++ "] " ++ strUpper d.method ++ " " ++ d.url ++
          " - Status: " ++ statusToString d.status).data,
        ("Request Data: " ++ stringifyC d.data).data,
        ("Response Data: " ++ stringifyC d.responseData).data,
        [], []] := by
  have h1 : noLF ("[" ++ ts ++ "] " ++ strUpper d.method ++ " " ++ d.url ++
      " - Status: " ++ statusToString d.status) = true := by
    simp [noLF_append, hts, hurl, hst, noLF_strUpper hm]
    decide
  have h2 : noLF ("Request Data: " ++ stringifyC d.data) = true := by
    simp [noLF_append, noLF_stringifyC]
    decide
  have h3 : noLF ("Response Data: " ++ stringifyC d.responseData) = true := by
    simp [noLF_append, noLF_stringifyC]
    decide
  have e1 : ("\n" : String).data = ['\n'] := rfl
  have e2 : ("\n\n" : String).data = ['\n', '\n'] := rfl
  have hdata : (logEntryText ts d).data =
      ("[" ++ ts ++ "] " ++ strUpper d.method ++ " " ++ d.url ++
          " - Status: " ++ statusToString d.status).data ++ '\n' ::
        (("Request Data: " ++ stringifyC d.data).data ++ '\n' ::
          (("Response Data: " ++ stringifyC d.responseData).data ++
            '\n' :: ['\n'])) := by
    simp [logEntryText, String.data_append, List.append_assoc, e1, e2]
  rw [hdata, splitNL_append _ h1, splitNL_append _ h2, splitNL_append _ h3]
  simp [splitNL]

/-- Witness for C8 at a concrete timestamp and the concrete 404 failure. -/
theorem c8_log_entry_four_lines_witness :
    noLF "2026-01-01T00:00:00.000Z" = true ∧
    noLF (mkErrorDetails err404).url = true ∧
    noLF (mkErrorDetails err404).method = true ∧
    noLF (statusToString (mkErrorDetails err404).status) = true ∧
    splitNL (logEntryText "2026-01-01T00:00:00.000Z"
        (mkErrorDetails err404)).data =
      [("[" ++ "2026-01-01T00:00:00.000Z" ++ "] " ++
          strUpper (mkErrorDetails err404).method ++ " " ++
          (mkErrorDetails err404).url ++ " - Status: " ++
          statusToString (mkErrorDetails err404).status).data,
        ("Request Data: " ++ stringifyC (mkErrorDetails err404).data).data,
        ("Response Data: " ++
          stringifyC (mkErrorDetails err404).responseData).data,
        [], []] :=
  ⟨by decide, by decide, by decide, by decide,
    c8_log_entry_four_lines "2026-01-01T00:00:00.000Z" (mkErrorDetails err404)
      (by decide) (by decide) (by decide) (by decide)⟩

/-- C2: a failure of the `sendMessage` POST, of the `sendDocument` POST or
of the log write is caught inside the notifier and reported to
`console.error`, and for every intercepted failure and every combination
of delivery and log outcomes the interceptor still settles by rejecting
with the original error, so no secondary exception ever reaches the
calling application. -/
theorem c2_secondary_failures_absorbed (n : TViewerErrorNotifier) (env : Env)
    (e : AxiosError) (st : HState) :
    (interceptorRejected n env e st).1 = InterceptResult.reject e ∧
    (n.sendAsFile = false → env.msgOk = false →
      Event.consoleError "Ошибка при отправке сообщения в Telegram:" ∈
        (interceptorRejected n env e st).2.1) ∧
    (n.sendAsFile = true → env.docOk = false →
      Event.consoleError "Ошибка при отправке файла в Telegram:" ∈
        (interceptorRejected n env e st).2.1) ∧
    (env.appendOk = false →
      Event.consoleError "Ошибка при записи в лог файл:" ∈
        (interceptorRejected n env e st).2.1) := by
  refine ⟨rfl, ?_, ?_, ?_⟩
  · intro hS hM
    simp [interceptorRejected, handleError, hS, hM, sendErrorMessage,
      sendTelegramMessage, logError]
  · intro hS hD
    simp [interceptorRejected, handleError, hS, hD, sendErrorAsFile, logError]
  · intro hA
    cases hS : n.sendAsFile <;> cases hM : env.msgOk <;> cases hD : env.docOk <;>
      simp [interceptorRejected, handleError, hS, hM, hD, hA,
        sendErrorMessage, sendTelegramMessage, sendErrorAsFile, logError]

/-- Witness for C2: a failing message POST with a failing log write, and a
failing document upload, at concrete inputs. -/
theorem c2_secondary_failures_absorbed_witness :
    ((interceptorRejected ⟨"t", "c", false, "./error.log"⟩
        ⟨false, true, false, "ts", "/app"⟩ ⟨none, none⟩ ⟨[], []⟩).1 =
      InterceptResult.reject ⟨none, none⟩ ∧
    Event.consoleError "Ошибка при отправке сообщения в Telegram:" ∈
      (interceptorRejected ⟨"t", "c", false, "./error.log"⟩
        ⟨false, true, false, "ts", "/app"⟩ ⟨none, none⟩ ⟨[], []⟩).2.1 ∧
    Event.consoleError "Ошибка при записи в лог файл:" ∈
      (interceptorRejected ⟨"t", "c", false, "./error.log"⟩
        ⟨false, true, false, "ts", "/app"⟩ ⟨none, none⟩ ⟨[], []⟩).2.1) ∧
    Event.consoleError "Ошибка при отправке файла в Telegram:" ∈
      (interceptorRejected ⟨"t", "c", true, "./error.log"⟩
        ⟨true, false, true, "ts", "/app"⟩ ⟨none, none⟩ ⟨[], []⟩).2.1 := by
  have hA := c2_secondary_failures_absorbed ⟨"t", "c", false, "./error.log"⟩
    ⟨false, true, false, "ts", "/app"⟩ ⟨none, none⟩ ⟨[], []⟩
  have hB := c2_secondary_failures_absorbed ⟨"t", "c", true, "./error.log"⟩
    ⟨true, false, true, "ts", "/app"⟩ ⟨none, none⟩ ⟨[], []⟩
  exact ⟨⟨hA.1, hA.2.1 rfl rfl, hA.2.2.2 rfl⟩, hB.2.2.1 rfl rfl⟩
